import Mathlib

/-!
Verification of the session-management core of bbb-webrtc-sfu against its
natural-language specification.  The development shallowly embeds the two
source files `src/lib/video/VideoManager.js` and
`src/lib/audio/client-static-transceiver.js` (the latter contains both the
`ClientAudioStTransceiver` endpoint and the `AudioSession` orchestrator).
Collaborating modules that are not under `src/` (base-manager, base-provider,
the `Video` class, the error catalogue, the constants module, the permission
utilities and the FreeSWITCH bridges) are modelled from the spec where a
claim depends on them; each such definition carries a doc comment starting
with `Modelled from the spec:`.
-/

namespace SFU

/-- Modelled from the spec: the session status constants of
`lib/bbb/messages/Constants` (not under src/): `STARTING`, `STARTED`,
`STOPPING`, `STOPPED`. -/
inductive MediaStatus
  | STARTING
  | STARTED
  | STOPPING
  | STOPPED
deriving DecidableEq

/-- Modelled from the spec: the error catalogue of `lib/base/errors`
(not under src/).  Every error surfaced to a client carries a numeric code
from a fixed catalogue; the `_handleError` normalization maps internal
failures onto catalogue entries, so errors are modelled as already
normalized catalogue values. -/
structure SfuError where
  code : Nat
deriving DecidableEq

namespace errors

/-- Modelled from the spec: bad role, unknown message id, malformed header
under strict parsing. -/
def SFU_INVALID_REQUEST : SfuError := ⟨2200⟩

/-- Modelled from the spec: MCS unreachable or lost mid-session. -/
def MEDIA_SERVER_OFFLINE : SfuError := ⟨2001⟩

/-- Media timeout error, code 2211 in the source
(client-static-transceiver.js:145). -/
def MEDIA_TIMEOUT : SfuError := ⟨2211⟩

end errors

instance {ε α : Type} [DecidableEq ε] [DecidableEq α] :
    DecidableEq (Except ε α) :=
  fun a b =>
    match a, b with
    | Except.error x, Except.error y =>
        if h : x = y then Decidable.isTrue (by rw [h])
        else Decidable.isFalse (fun hc => by cases hc; exact h rfl)
    | Except.error _, Except.ok _ => Decidable.isFalse (fun hc => by cases hc)
    | Except.ok _, Except.error _ => Decidable.isFalse (fun hc => by cases hc)
    | Except.ok x, Except.ok y =>
        if h : x = y then Decidable.isTrue (by rw [h])
        else Decidable.isFalse (fun hc => by cases hc; exact h rfl)

/-- Outbound client frames published on the client-facing channel. -/
inductive OutFrame
  | webRTCAudioSuccess (connectionId : String)
  | webRTCAudioError (connectionId : String) (code : Nat)
  | iceCandidate (connectionId candidate : String)
  | closeFrame (connectionId : String)
  | startResponse (connectionId cameraId sdpAnswer : String)
  | videoError (connectionId : String) (code : Nat)
deriving DecidableEq

/-- Insert-or-replace in an association list, keeping first-insertion
order, as a JS `Map.set`. -/
def upsert {α : Type} (l : List (String × α)) (k : String) (v : α) :
    List (String × α) :=
  match l with
  | [] => [(k, v)]
  | (k', v') :: rest =>
      if k' = k then (k, v) :: rest else (k', v') :: upsert rest k v

/-- Association-list lookup, as a JS `Map.get`. -/
def lookupKey {α : Type} (l : List (String × α)) (k : String) : Option α :=
  match l with
  | [] => none
  | (k', v') :: rest => if k' = k then some v' else lookupKey rest k

/-- At most one entry per key: pairwise-distinct keys in the table. -/
def distinctKeys {α : Type} (l : List (String × α)) : Prop :=
  l.Pairwise (fun a b => a.1 ≠ b.1)

/-- Number of entries stored under a key. -/
def countKey {α : Type} (l : List (String × α)) (k : String) : Nat :=
  (l.filter (fun kv => kv.1 == k)).length

/-- Modelled from the spec: the `Video` session class
(`lib/video/video.js`, not under src/): a per-client session record; the
constructor leaves it in `STARTING`. -/
structure Video where
  sessionId : String
  connectionId : String
  status : MediaStatus
deriving DecidableEq

namespace VideoManager

/-- Inbound bus message as routed by `VideoManager._onMessage`
(VideoManager.js:308), restricted to the fields the claims use. -/
structure Message where
  id : String
  userId : String
  cameraId : String
  role : String
  connectionId : String
  sdpOffer : String := ""
  candidate : String := ""
  answer : String := ""
deriving DecidableEq

/-- Source `VideoManager.getCameraId` (VideoManager.js:37). -/
def getCameraId (message : Message) : String := message.cameraId

/-- Source `VideoManager.getSessionId` (VideoManager.js:41):
the canonical composite key string. -/
def getSessionId (message : Message) : String :=
  message.userId ++ "-" ++ getCameraId message ++ "-" ++ message.role

/-- Source `VideoManager.isVideoInstanceReady` (VideoManager.js:72),
embedded faithfully: the argument is either absent (`none`, a missed
table lookup) or a stored `Video` instance (the session table stores only
`Video` values, so the `constructor === Video` test holds for every
present value); the status test is the source's disjunction
`status !== STOPPED || status !== STOPPING`. -/
def isVideoInstanceReady : Option Video → Bool
  | none => false
  | some video =>
      (video.status != MediaStatus.STOPPED || video.status != MediaStatus.STOPPING)

/-- Modelled from the spec: readiness as the spec defines it,
`status ∈ {STARTING, STARTED}` (§9 "Session-readiness test"). -/
def isVideoInstanceReadySpec : Option Video → Bool
  | none => false
  | some video =>
      (video.status == MediaStatus.STARTING || video.status == MediaStatus.STARTED)

/-- The test `userId.match(/^v_*/ig)` of `_trackExternalWebcamSources`
(VideoManager.js:88): the pattern is `v` followed by zero or more
underscores, anchored at the start, case-insensitive; its truthiness is
exactly "the string starts with `v` or `V`" — the underscore is not
required. -/
def matchesReservedSource (userId : String) : Bool :=
  match userId.toList with
  | [] => false
  | c :: _ => c == 'v' || c == 'V'

/-- Literal "begins with" on character lists, used to state the claim's
notion of a reserved `v_` name. -/
def beginsWithChars : List Char → List Char → Bool
  | [], _ => true
  | _ :: _, [] => false
  | c :: cs, d :: ds => c == d && beginsWithChars cs ds

/-- The claim's wording: the userId begins with the reserved `v_` name. -/
def beginsWithReservedV (userId : String) : Bool :=
  beginsWithChars ['v', '_'] userId.toList

/-- The normalization `stream.replace(/\|SIP/ig, '')`
(VideoManager.js:89): removes every case-insensitive occurrence of
`|SIP`, scanning left to right, non-overlapping. -/
def stripSipChars : List Char → List Char
  | [] => []
  | '|' :: s :: i :: p :: rest =>
      if (s == 's' || s == 'S') && (i == 'i' || i == 'I') && (p == 'p' || p == 'P') then
        stripSipChars rest
      else
        '|' :: stripSipChars (s :: i :: p :: rest)
  | c :: rest => c :: stripSipChars rest

/-- Stream-name normalization on `String`. -/
def normalizeStreamName (stream : String) : String :=
  String.mk (stripSipChars stream.toList)

/-- Modelled from the spec: `Video.setSource` (lib/video/video.js, not
under src/) writes into a process-wide source table keyed by stream name
or user id. -/
def setSource (table : List (String × String)) (key value : String) :
    List (String × String) :=
  upsert table key value

/-- Source `_trackExternalWebcamSources` handler body (VideoManager.js:85)
for a `USER_CAM_BROADCAST_STARTED_2x` payload `{stream, userId}`: when the
reserved-source test matches, register the normalized stream name under
the original stream name and under the userId. -/
def _trackExternalWebcamSources (table : List (String × String))
    (stream userId : String) : List (String × String) :=
  if matchesReservedSource userId then
    let normalizedStreamName := normalizeStreamName stream
    setSource (setSource table stream normalizedStreamName) userId normalizedStreamName
  else table

end VideoManager

/-- Calls made against the MCS gateway and the softswitch bridge, in the
order they are issued; the trace of a run. -/
inductive McsCall
  | waitForConnection
  | join (room externalUserId : String)
  | publish (mcsUserId room descriptor : String)
  | bridgeStart (mediaId : String)
  | consume (sourceMediaId sinkMediaId kind : String)
  | connect (sourceMediaId sinkMediaId kind : String)
  | onEventMediaState (mediaId : String)
  | onEventMediaStateIce (mediaId : String)
  | addIceCandidate (mediaId candidate : String)
  | unpublish (mcsUserId mediaId : String)
  | bridgeStop
deriving DecidableEq

namespace Transceiver

/-- State of a `ClientAudioStTransceiver`
(client-static-transceiver.js:16-56).  Timer handles are modelled as
`Option Nat` (a pending `setTimeout` handle or null), with `nextTimerId`
as the fresh-handle supply; `mcsSubscribed` is the `MCS_DISCONNECTED`
listener, `ownListeners` the object's own emitter listeners;
`bridgeAttached`/`bridgeMediaId` model the `FSTransceiverBridge` slot
(fs-transceiver-bridge.js is not under src/, the bridge itself is
modelled from the spec). -/
structure State where
  voiceBridge : String
  userId : String
  connectionId : String
  mcsUserId : Option String
  mediaId : Option String
  candidatesQueue : List String
  mediaFlowingTimeout : Option Nat
  mediaStateTimeout : Option Nat
  nextTimerId : Nat
  mcsSubscribed : Bool
  ownListeners : Bool
  bridgeAttached : Bool
  bridgeMediaId : Option String
deriving DecidableEq

/-- Constructor state (client-static-transceiver.js:47-55): no MCS user,
no media id, empty pending-ICE queue, no timers, MCS listener attached,
bridge constructed. -/
def initState (voiceBridge userId connectionId : String) : State :=
  { voiceBridge := voiceBridge
    userId := userId
    connectionId := connectionId
    mcsUserId := none
    mediaId := none
    candidatesQueue := []
    mediaFlowingTimeout := none
    mediaStateTimeout := none
    nextTimerId := 0
    mcsSubscribed := true
    ownListeners := true
    bridgeAttached := true
    bridgeMediaId := none }

/-- Source `onIceCandidate` (client-static-transceiver.js:88): with a
media id present, flush the pending queue and forward the candidate to
`mcs.addIceCandidate`; otherwise append it to the pending queue. -/
def onIceCandidate (s : State) (candidate : String) : State × List McsCall :=
  match s.mediaId with
  | some m =>
      ({ s with candidatesQueue := [] },
        s.candidatesQueue.map (fun c => McsCall.addIceCandidate m c)
          ++ [McsCall.addIceCandidate m candidate])
  | none =>
      ({ s with candidatesQueue := s.candidatesQueue ++ [candidate] }, [])

/-- Source `_flushCandidatesQueue` (client-static-transceiver.js:103):
with a media id present, forward a copy of the pending queue into the MCS
(the base-provider `flushCandidatesQueue` helper is not under src/ and is
modelled from the spec as a FIFO drain into `mcs.addIceCandidate`) and
empty the queue in the same step; without a media id, do nothing. -/
def _flushCandidatesQueue (s : State) : State × List McsCall :=
  match s.mediaId with
  | some m =>
      ({ s with candidatesQueue := [] },
        s.candidatesQueue.map (fun c => McsCall.addIceCandidate m c))
  | none => (s, [])

/-- Source `setMediaFlowingTimeout` (client-static-transceiver.js:149):
arm the media-flow watchdog only when no timer is pending. -/
def setMediaFlowingTimeout (s : State) : State :=
  match s.mediaFlowingTimeout with
  | some _ => s
  | none =>
      { s with mediaFlowingTimeout := some s.nextTimerId
               nextTimerId := s.nextTimerId + 1 }

/-- Source `clearMediaFlowingTimeout` (client-static-transceiver.js:159). -/
def clearMediaFlowingTimeout (s : State) : State :=
  match s.mediaFlowingTimeout with
  | some _ => { s with mediaFlowingTimeout := none }
  | none => s

/-- Source `setMediaStateTimeout` (client-static-transceiver.js:190):
arm the media-state watchdog only when no timer is pending. -/
def setMediaStateTimeout (s : State) : State :=
  match s.mediaStateTimeout with
  | some _ => s
  | none =>
      { s with mediaStateTimeout := some s.nextTimerId
               nextTimerId := s.nextTimerId + 1 }

/-- Source `clearMediaStateTimeout` (client-static-transceiver.js:200). -/
def clearMediaStateTimeout (s : State) : State :=
  match s.mediaStateTimeout with
  | some _ => { s with mediaStateTimeout := none }
  | none => s

/-- Source `_onSubscriberMediaFlowing` (client-static-transceiver.js:120):
clear the media-flow watchdog and emit the `MEDIA_FLOWING` success frame. -/
def _onSubscriberMediaFlowing (s : State) : State × List OutFrame :=
  (clearMediaFlowingTimeout s, [OutFrame.webRTCAudioSuccess s.connectionId])

/-- Source `_onSubscriberMediaNotFlowing` (client-static-transceiver.js:132). -/
def _onSubscriberMediaNotFlowing (s : State) : State × List OutFrame :=
  (setMediaFlowingTimeout s, [])

/-- Source `_onSubscriberMediaConnected` (client-static-transceiver.js:166):
clear the media-state watchdog. -/
def _onSubscriberMediaConnected (s : State) : State × List OutFrame :=
  (clearMediaStateTimeout s, [])

/-- Source `_onSubscriberMediaDisconnected` (client-static-transceiver.js:172). -/
def _onSubscriberMediaDisconnected (s : State) : State × List OutFrame :=
  (setMediaStateTimeout s, [])

/-- Names of MCS media events (client-static-transceiver.js:249-272). -/
inductive MediaEventName
  | MediaStateChanged
  | MediaFlowOutStateChange
  | MediaFlowInStateChange
  | MEDIA_SERVER_OFFLINE
  | otherEvent
deriving DecidableEq

/-- An MCS media event as dispatched to `_mediaStateWebRTC`. -/
structure MediaEvent where
  mediaId : String
  name : MediaEventName
  details : String
deriving DecidableEq

/-- Source `_mediaStateWebRTC` (client-static-transceiver.js:240): events
for a different media id are ignored; `MediaStateChanged` dispatches on
CONNECTED/DISCONNECTED, flow-state changes on FLOWING/NOT_FLOWING,
`MEDIA_SERVER_OFFLINE` is re-emitted upward (no timer change here). -/
def _mediaStateWebRTC (s : State) (ev : MediaEvent) (targetMediaId : String) :
    State × List OutFrame :=
  if ev.mediaId ≠ targetMediaId then (s, [])
  else
    match ev.name with
    | .MediaStateChanged =>
        if ev.details = "CONNECTED" then _onSubscriberMediaConnected s
        else if ev.details = "DISCONNECTED" then _onSubscriberMediaDisconnected s
        else (s, [])
    | .MediaFlowOutStateChange =>
        if ev.details = "FLOWING" then _onSubscriberMediaFlowing s
        else _onSubscriberMediaNotFlowing s
    | .MediaFlowInStateChange =>
        if ev.details = "FLOWING" then _onSubscriberMediaFlowing s
        else _onSubscriberMediaNotFlowing s
    | .MEDIA_SERVER_OFFLINE => (s, [])
    | .otherEvent => (s, [])

/-- Source `stop` (client-static-transceiver.js:420): empty the ICE
queue, clear both watchdogs, detach the MCS listener; when both a media
id and an MCS user id exist, a best-effort `mcs.unpublish` (failures
swallowed); then stop and null the bridge (the null-setter detaches the
bridge listeners). -/
def stop (s : State) : State × List McsCall :=
  let s1 : State :=
    { s with candidatesQueue := []
             mediaFlowingTimeout := none
             mediaStateTimeout := none
             mcsSubscribed := false }
  let unpublishCalls : List McsCall :=
    match s1.mediaId, s1.mcsUserId with
    | some m, some u => [McsCall.unpublish u m]
    | _, _ => []
  if s1.bridgeAttached then
    ({ s1 with bridgeAttached := false, bridgeMediaId := none },
      unpublishCalls ++ [McsCall.bridgeStop])
  else (s1, unpublishCalls)

/-- Responses of the MCS gateway and the bridge for one `start` run: each
RPC either succeeds with its value or fails with a (normalized) error.
`bridgeStart` is the `FSTransceiverBridge.start` of step 4, modelled from
the spec (fs-transceiver-bridge.js is not under src/); its success value
is the bridge media id read afterwards. -/
structure McsOracle where
  waitForConnection : Bool
  join : Except SfuError String
  publish : Except SfuError String
  bridgeStart : Except SfuError String
  consume : Except SfuError String

/-- Source `_negotiateTransceiver` (client-static-transceiver.js:312):
publish (recording the media id), bridge start, consume for the answer,
connect both directions (fire-and-forget in the source), subscribe to
`MEDIA_STATE` and `MEDIA_STATE_ICE` for this media id, flush the
pending-ICE queue, return the answer; any RPC failure propagates as a
normalized error. -/
def _negotiateTransceiver (o : McsOracle) (s : State) (sdpOffer : String) :
    Except SfuError String × State × List McsCall :=
  let publishCall := McsCall.publish (s.mcsUserId.getD "") s.voiceBridge sdpOffer
  match o.publish with
  | .error e => (.error e, s, [publishCall])
  | .ok mediaId =>
    let s1 : State := { s with mediaId := some mediaId }
    match o.bridgeStart with
    | .error e => (.error e, s1, [publishCall, .bridgeStart mediaId])
    | .ok bridgeMediaId =>
      let s2 : State := { s1 with bridgeMediaId := some bridgeMediaId }
      match o.consume with
      | .error e =>
          (.error e, s2,
            [publishCall, .bridgeStart mediaId,
              .consume bridgeMediaId mediaId "AUDIO"])
      | .ok answer =>
          let flushed := _flushCandidatesQueue s2
          (.ok answer, flushed.1,
            [publishCall, .bridgeStart mediaId,
              .consume bridgeMediaId mediaId "AUDIO",
              .connect mediaId bridgeMediaId "AUDIO",
              .connect bridgeMediaId mediaId "AUDIO",
              .onEventMediaState mediaId, .onEventMediaStateIce mediaId]
              ++ flushed.2)

/-- Source `start` (client-static-transceiver.js:277): wait for the MCS
connection — when it reports false, fail with `MEDIA_SERVER_OFFLINE`
calling nothing else; then join (errors normalized and re-raised), then
negotiate. -/
def start (o : McsOracle) (s : State) (sdpOffer : String) :
    Except SfuError String × State × List McsCall :=
  if o.waitForConnection then
    match o.join with
    | .error e => (.error e, s, [.waitForConnection, .join s.voiceBridge "SFU"])
    | .ok u =>
        let s1 : State := { s with mcsUserId := some u }
        let negotiated := _negotiateTransceiver o s1 sdpOffer
        (negotiated.1, negotiated.2.1,
          [McsCall.waitForConnection, McsCall.join s.voiceBridge "SFU"]
            ++ negotiated.2.2)
  else (.error errors.MEDIA_SERVER_OFFLINE, s, [.waitForConnection])

end Transceiver

namespace AudioSession

/-- State of an `AudioSession` (client-static-transceiver.js, second
module, lines 465-500): the owned endpoint slot (a transceiver, for the
`sendrecv` role covered here), the `USER_LEFT_MEETING` subscription and
the `MCS_DISCONNECTED` subscription. -/
structure State where
  clientEndpoint : Option Transceiver.State
  meetingSubscribed : Bool
  mcsSubscribed : Bool
deriving DecidableEq

/-- Source `finalDetachEventListeners` of the endpoint
(client-static-transceiver.js:415): untrack MCS events and remove the
endpoint's own listeners; invoked by the session's
`_clearClientEndpointEvents` and by the endpoint-slot null-setter. -/
def finalDetachEndpoint (ep : Transceiver.State) : Transceiver.State :=
  { ep with mcsSubscribed := false, ownListeners := false }

/-- Source `AudioSession.stop` (client-static-transceiver.js:696-708):
detach the endpoint's event listeners, untrack meeting and MCS events;
if an endpoint is present (the source's `typeof this.clientEndpoint.stop`
conjunct is always truthy, so the guard is just presence), await its
stop; finally clear the endpoint slot to null.  Returns the new state,
the MCS-facing calls and the client frames emitted (none on any path). -/
def stop (s : State) : State × List McsCall × List OutFrame :=
  let detached := s.clientEndpoint.map finalDetachEndpoint
  match detached with
  | some ep =>
      let stopped := Transceiver.stop ep
      ({ clientEndpoint := none, meetingSubscribed := false,
         mcsSubscribed := false }, stopped.2, [])
  | none =>
      ({ clientEndpoint := none, meetingSubscribed := false,
         mcsSubscribed := false }, [], [])

end AudioSession

namespace VideoManager

/-- Manager-owned mutable state: the session table and the per-session
pending-ICE queues (both private to the Manager). -/
structure VMState where
  sessions : List (String × Video)
  iceQueues : List (String × List String)
deriving DecidableEq

/-- Observable events of a `handleStart` run, in the order they occur. -/
inductive VMEvent
  | sessionStopped (sessionId : String)
  | stored (sessionId : String)
  | videoStartCalled (sessionId : String)
  | flushedIceQueue (sessionId : String) (n : Nat)
deriving DecidableEq

/-- Modelled from the spec: `BaseManager.getSession` (base-manager.js,
not under src/) — session-table lookup. -/
def getSession (st : VMState) (sessionId : String) : Option Video :=
  lookupKey st.sessions sessionId

/-- Modelled from the spec: `BaseManager.storeSession` (base-manager.js,
not under src/) — insert or replace the table entry under the key. -/
def storeSession (st : VMState) (sessionId : String) (video : Video) : VMState :=
  { st with sessions := upsert st.sessions sessionId video }

/-- Modelled from the spec: `BaseManager._fetchIceQueue` (base-manager.js,
not under src/) — return the pending-ICE queue for the key, creating an
empty one when absent. -/
def _fetchIceQueue (st : VMState) (sessionId : String) : VMState × List String :=
  match lookupKey st.iceQueues sessionId with
  | some q => (st, q)
  | none => ({ st with iceQueues := upsert st.iceQueues sessionId [] }, [])

/-- Modelled from the spec: `BaseManager._deleteIceQueue` (base-manager.js,
not under src/) — drop the pending-ICE queue of the key. -/
def _deleteIceQueue (st : VMState) (sessionId : String) : VMState :=
  { st with iceQueues := st.iceQueues.filter (fun kv => kv.1 != sessionId) }

/-- Modelled from the spec: `BaseManager._stopSession` (base-manager.js,
not under src/) — stop the stored session, await it to STOPPED and remove
it from the table; stop failures are logged and swallowed by the caller. -/
def _stopSession (st : VMState) (sessionId : String) : VMState × List VMEvent :=
  match getSession st sessionId with
  | some _ =>
      ({ st with sessions := st.sessions.filter (fun kv => kv.1 != sessionId) },
        [VMEvent.sessionStopped sessionId])
  | none => (st, [])

/-- Source `_closeSession` (VideoManager.js:224): stop the session, then
delete its pending-ICE queue; errors from the stop are swallowed and the
queue is deleted regardless. -/
def _closeSession (st : VMState) (sessionId : String) : VMState × List VMEvent :=
  let stopped := _stopSession st sessionId
  (_deleteIceQueue stopped.1 sessionId, stopped.2)

/-- Modelled from the spec: the permission oracle results of
`getCamBroadcastPermission` / `getCamSubscribePermission`
(video-perm-utils.js, not under src/) for the request at hand. -/
structure PermissionOracle where
  camBroadcast : Except SfuError Unit
  camSubscribe : Except SfuError Unit

/-- Source `_getPermission` (VideoManager.js:129): `share` asks for
broadcast permission, `viewer` for subscribe permission, any other role
throws `SFU_INVALID_REQUEST`. -/
def _getPermission (o : PermissionOracle) (role : String) : Except SfuError Unit :=
  if role = "share" then o.camBroadcast
  else if role = "viewer" then o.camSubscribe
  else .error errors.SFU_INVALID_REQUEST

/-- Modelled from the spec: `new Video(...)` (lib/video/video.js, not
under src/) constructs a session in `STARTING`. -/
def newVideo (sessionId connectionId : String) : Video :=
  { sessionId := sessionId, connectionId := connectionId,
    status := MediaStatus.STARTING }

/-- Oracle for one `handleStart` run: the permission query results and
the outcome of `video.start(sdpOffer, mediaSpecs)`. -/
structure StartOracle where
  permission : PermissionOracle
  videoStart : Except SfuError String

/-- Everything a `handleStart` run produces: the new manager state, the
client frames sent, the error-metric increments `(method, errorCode)`,
and the ordered trace of observable events. -/
structure HandleStartOutcome where
  state : VMState
  frames : List OutFrame
  errorMetrics : List (String × Nat)
  events : List VMEvent
deriving DecidableEq

/-- Source `handleStart` (VideoManager.js:156-222): permission first (a
failure is caught: one error frame, one error-metric increment labelled
with the message id and the normalized code, nothing else); then look up
any stale session and fetch/create the pending-ICE queue; a stale session
is closed (awaited) before the new `Video` is constructed and stored;
then `video.start` — on failure the catch sends one error frame and
increments the metric, leaving the stored session in place; on success
the captured ICE queue is flushed and the `startResponse` frame is sent. -/
def handleStart (o : StartOracle) (st : VMState) (request : Message) :
    HandleStartOutcome :=
  let sessionId := getSessionId request
  match _getPermission o.permission request.role with
  | .error e =>
      { state := st
        frames := [OutFrame.videoError request.connectionId e.code]
        errorMetrics := [(request.id, e.code)]
        events := [] }
  | .ok _ =>
      let existing := getSession st sessionId
      let fetched := _fetchIceQueue st sessionId
      let closed :=
        match existing with
        | some _ => _closeSession fetched.1 sessionId
        | none => (fetched.1, [])
      let video := newVideo sessionId request.connectionId
      let stored := storeSession closed.1 sessionId video
      match o.videoStart with
      | .error e =>
          { state := stored
            frames := [OutFrame.videoError request.connectionId e.code]
            errorMetrics := [(request.id, e.code)]
            events := closed.2 ++ [VMEvent.stored sessionId,
              VMEvent.videoStartCalled sessionId] }
      | .ok sdpAnswer =>
          { state := stored
            frames := [OutFrame.startResponse request.connectionId
              request.cameraId sdpAnswer]
            errorMetrics := []
            events := closed.2 ++ [VMEvent.stored sessionId,
              VMEvent.videoStartCalled sessionId,
              VMEvent.flushedIceQueue sessionId fetched.2.length] }

/-- Concrete inbound `start` message used by witnesses. -/
def sampleStartMessage : Message :=
  { id := "start", userId := "u1", cameraId := "c1", role := "share", connectionId := "conn2" }

/-- Concrete manager state holding one stored session, used by witnesses. -/
def sampleTable : VMState :=
  { sessions := [("u1-c1-share", newVideo "u1-c1-share" "conn1")], iceQueues := [] }

/-- A task enqueued on a per-key lifecycle queue by the router. -/
inductive LifecycleTask
  | handleStartTask (message : Message)
  | handleSubscriberAnswerTask (message : Message)
  | handleStopTask (message : Message)
deriving DecidableEq

/-- The routing decision of `_onMessage` for one inbound message. -/
inductive RouteEffect
  | enqueue (key : String) (task : LifecycleTask)
  | immediateIceCandidate (message : Message)
  | immediateClose (message : Message)
  | logUpstreamError (message : Message)
  | invalidRequest (message : Message)
deriving DecidableEq

/-- Source `_onMessage` (VideoManager.js:308-357): `start`,
`subscriberAnswer` and `stop` are pushed on the lifecycle queue fetched
for `getSessionId(message)`; `onIceCandidate` and `close` run
immediately; `error` is logged; anything else is an invalid request.
(Header parsing is elided: under non-strict parsing every message
proceeds.) -/
def _onMessage (message : Message) : RouteEffect :=
  if message.id = "start" then
    .enqueue (getSessionId message) (.handleStartTask message)
  else if message.id = "subscriberAnswer" then
    .enqueue (getSessionId message) (.handleSubscriberAnswerTask message)
  else if message.id = "stop" then
    .enqueue (getSessionId message) (.handleStopTask message)
  else if message.id = "onIceCandidate" then .immediateIceCandidate message
  else if message.id = "close" then .immediateClose message
  else if message.id = "error" then .logUpstreamError message
  else .invalidRequest message

end VideoManager

namespace Lifecycle

/-- Modelled from the spec: the per-key lifecycle queue of the base
manager (base-manager.js, not under src/): one FIFO per session key, one
task at a time, the next task starting only after the previous task's
asynchronous completion, whether it succeeded or failed.  Given the
completion durations of the enqueued tasks, `runQueue t0 ds` returns the
execution interval `(startInstant, endInstant)` of each task in queue
order. -/
def runQueue (t0 : Nat) : List Nat → List (Nat × Nat)
  | [] => []
  | d :: ds => (t0, t0 + d) :: runQueue (t0 + d) ds

/-- Closed form of the instant at which the i-th queued task begins. -/
def startTime (t0 : Nat) (ds : List Nat) (i : Nat) : Nat :=
  t0 + (ds.take i).sum

end Lifecycle

end SFU

namespace SFU

open VideoManager

theorem lookupKey_upsert_self {α : Type} (l : List (String × α)) (k : String)
    (v : α) : lookupKey (upsert l k v) k = some v := by
  induction l with
  | nil => simp [upsert, lookupKey]
  | cons hd tl ih =>
      obtain ⟨k', v'⟩ := hd
      by_cases h : k' = k
      · simp only [upsert]
        rw [if_pos h]
        simp [lookupKey]
      · simp only [upsert]
        rw [if_neg h]
        simp only [lookupKey]
        rw [if_neg h]
        exact ih

theorem lookupKey_upsert_other {α : Type} (l : List (String × α))
    (k k' : String) (v : α) (h : k ≠ k') :
    lookupKey (upsert l k' v) k = lookupKey l k := by
  induction l with
  | nil =>
      simp only [upsert, lookupKey]
      rw [if_neg (Ne.symm h)]
  | cons hd tl ih =>
      obtain ⟨ka, va⟩ := hd
      by_cases hh : ka = k'
      · simp only [upsert]
        rw [if_pos hh]
        simp only [lookupKey]
        rw [if_neg (Ne.symm h), if_neg (fun hx => (Ne.symm h) (hh ▸ hx))]
      · simp only [upsert]
        rw [if_neg hh]
        simp only [lookupKey]
        by_cases hk : ka = k
        · rw [if_pos hk, if_pos hk]
        · rw [if_neg hk, if_neg hk]
          exact ih

theorem mem_upsert_keys {α : Type} (l : List (String × α)) (k : String)
    (v : α) : ∀ b ∈ upsert l k v, b.1 = k ∨ b ∈ l := by
  induction l with
  | nil => intro b hb; simp [upsert] at hb; simp [hb]
  | cons hd tl ih =>
      intro b hb
      obtain ⟨ka, va⟩ := hd
      by_cases h : ka = k
      · rw [show upsert ((ka, va) :: tl) k v = (k, v) :: tl from by
          simp only [upsert]; rw [if_pos h]] at hb
        rw [List.mem_cons] at hb
        rcases hb with hb | hb
        · simp [hb]
        · simp [hb]
      · rw [show upsert ((ka, va) :: tl) k v = (ka, va) :: upsert tl k v from by
          simp only [upsert]; rw [if_neg h]] at hb
        rw [List.mem_cons] at hb
        rcases hb with hb | hb
        · simp [hb]
        · rcases ih b hb with hx | hx
          · simp [hx]
          · simp [hx]

theorem distinctKeys_upsert {α : Type} (l : List (String × α)) (k : String)
    (v : α) (h : distinctKeys l) : distinctKeys (upsert l k v) := by
  induction l with
  | nil => simp [upsert, distinctKeys]
  | cons hd tl ih =>
      rw [distinctKeys, List.pairwise_cons] at h
      obtain ⟨hhd, htl⟩ := h
      obtain ⟨ka, va⟩ := hd
      by_cases hk : ka = k
      · rw [distinctKeys, show upsert ((ka, va) :: tl) k v = (k, v) :: tl from by
          simp only [upsert]; rw [if_pos hk]]
        rw [List.pairwise_cons]
        refine ⟨fun b hb => ?_, htl⟩
        have := hhd b hb
        rw [hk] at this
        exact this
      · rw [distinctKeys, show upsert ((ka, va) :: tl) k v = (ka, va) :: upsert tl k v from by
          simp only [upsert]; rw [if_neg hk]]
        rw [List.pairwise_cons]
        refine ⟨fun b hb => ?_, ih htl⟩
        rcases mem_upsert_keys tl k v b hb with hx | hx
        · rw [hx]; exact hk
        · exact hhd b hx

theorem distinctKeys_filter {α : Type} (l : List (String × α))
    (p : String × α → Bool) (h : distinctKeys l) :
    distinctKeys (l.filter p) := by
  exact List.Pairwise.sublist (List.filter_sublist l) h

theorem countKey_eq_zero {α : Type} (l : List (String × α)) (k : String)
    (h : ∀ kv ∈ l, kv.1 ≠ k) : countKey l k = 0 := by
  induction l with
  | nil => simp [countKey]
  | cons hd tl ih =>
      have hhd : hd.1 ≠ k := h hd (by simp)
      have htl : ∀ kv ∈ tl, kv.1 ≠ k := fun kv hkv => h kv (by simp [hkv])
      simp only [countKey, List.filter_cons]
      have hb : (hd.1 == k) = false := by
        simp [hhd]
      rw [hb]
      simpa [countKey] using ih htl

theorem countKey_upsert_self {α : Type} (l : List (String × α)) (k : String)
    (v : α) (h : distinctKeys l) : countKey (upsert l k v) k = 1 := by
  induction l with
  | nil => simp [upsert, countKey]
  | cons hd tl ih =>
      rw [distinctKeys, List.pairwise_cons] at h
      obtain ⟨hhd, htl⟩ := h
      obtain ⟨ka, va⟩ := hd
      by_cases hk : ka = k
      · rw [show upsert ((ka, va) :: tl) k v = (k, v) :: tl from by
          simp only [upsert]; rw [if_pos hk]]
        simp only [countKey, List.filter_cons, beq_self_eq_true, List.length_cons]
        have hz : countKey tl k = 0 := by
          apply countKey_eq_zero
          intro kv hkv
          intro hc
          exact (hhd kv hkv) (by rw [hk, hc])
        simpa [countKey] using hz
      · rw [show upsert ((ka, va) :: tl) k v = (ka, va) :: upsert tl k v from by
          simp only [upsert]; rw [if_neg hk]]
        simp only [countKey, List.filter_cons]
        have hb : ((ka, va).1 == k) = false := by simp [hk]
        rw [hb]
        simpa [countKey] using ih htl

/-- C8: the claim says `isVideoInstanceReady v = true` iff `v` is a Video
with status in {STARTING, STARTED}.  The source contradicts it: its
disjunction `status !== STOPPED || status !== STOPPING` is a tautology,
so a stored Video in `STOPPED` status is reported ready (`true`) while
the specified readiness is `false`; indeed the source predicate is
exactly "a Video is present", whatever the status.  Consequently
`handleIceCandidate` forwards rather than queues ICE candidates for
stopping or stopped sessions. -/
theorem C8_isVideoInstanceReady_tautology :
    isVideoInstanceReady
        (some { sessionId := "u1-c1-share", connectionId := "conn1",
                status := MediaStatus.STOPPED }) = true
    ∧ isVideoInstanceReadySpec
        (some { sessionId := "u1-c1-share", connectionId := "conn1",
                status := MediaStatus.STOPPED }) = false
    ∧ ∀ v : Option Video, isVideoInstanceReady v = v.isSome := by
  refine ⟨rfl, rfl, ?_⟩
  intro v
  rcases v with _ | video
  · rfl
  · cases h : video.status <;> simp [isVideoInstanceReady, h]

/-- C9 counterexample: the claim says the source table is updated if and
only if the userId begins with the reserved prefix `v_`.  The userId
`"victor"` does not begin with `v_`, yet the handler updates the table
(the regex `/^v_*/i` requires no underscore). -/
theorem C9_counterexample :
    _trackExternalWebcamSources [] "stream1" "victor" =
      [("stream1", "stream1"), ("victor", "stream1")]
    ∧ beginsWithReservedV "victor" = false := by
  exact ⟨by decide, by decide⟩

/-- C9 (amended): on a `USER_CAM_BROADCAST_STARTED_2x` event the source
table is updated only when the userId starts with the letter `v` (case-
insensitively; the regex `/^v_*/i` does not require the underscore); in
that case the stream name with every case-insensitive occurrence of
`|SIP` removed is registered under both the original stream name and the
userId; otherwise the table is unchanged. -/
theorem C9_trackExternalWebcamSources_amended
    (table : List (String × String)) (stream userId : String) :
    (matchesReservedSource userId = false →
      _trackExternalWebcamSources table stream userId = table)
    ∧ (matchesReservedSource userId = true →
        lookupKey (_trackExternalWebcamSources table stream userId) userId =
          some (normalizeStreamName stream)
        ∧ lookupKey (_trackExternalWebcamSources table stream userId) stream =
          some (normalizeStreamName stream)) := by
  constructor
  · intro h
    simp [_trackExternalWebcamSources, h]
  · intro h
    simp only [_trackExternalWebcamSources, h, if_pos, setSource]
    constructor
    · exact lookupKey_upsert_self _ _ _
    · by_cases hs : stream = userId
      · rw [hs]
        exact lookupKey_upsert_self _ _ _
      · rw [lookupKey_upsert_other _ _ _ _ hs]
        exact lookupKey_upsert_self _ _ _

/-- C9 witness: concrete runs of the amended theorem — a non-matching
userId leaves the table unchanged, a matching one registers the
normalized name (here `"s|SIPx"` normalizes to `"sx"`). -/
theorem C9_witness :
    _trackExternalWebcamSources [] "s|SIPx" "nope" = []
    ∧ lookupKey (_trackExternalWebcamSources [] "s|SIPx" "v_cam") "v_cam" =
        some (normalizeStreamName "s|SIPx")
    ∧ normalizeStreamName "s|SIPx" = "sx" := by
  refine ⟨(C9_trackExternalWebcamSources_amended [] "s|SIPx" "nope").1 (by decide),
    ((C9_trackExternalWebcamSources_amended [] "s|SIPx" "v_cam").2 (by decide)).1,
    by decide⟩

/-- C2: ICE handling of the audio transceiver endpoint: `onIceCandidate`
appends to the pending queue when no media id is known, and with a media
id present forwards to `mcs.addIceCandidate` (after draining any pending
queue first); `_flushCandidatesQueue` with a media id present forwards
exactly the pending candidates (one MCS call per candidate) in arrival
order and empties the queue in the same single transition. -/
theorem C2_pending_ice_queue (s : Transceiver.State) (m candidate : String) :
    (s.mediaId = none →
      Transceiver.onIceCandidate s candidate =
        ({ s with candidatesQueue := s.candidatesQueue ++ [candidate] }, []))
    ∧ (s.mediaId = some m →
        Transceiver.onIceCandidate s candidate =
          ({ s with candidatesQueue := [] },
            s.candidatesQueue.map (fun c => McsCall.addIceCandidate m c)
              ++ [McsCall.addIceCandidate m candidate]))
    ∧ (s.mediaId = some m →
        Transceiver._flushCandidatesQueue s =
          ({ s with candidatesQueue := [] },
            s.candidatesQueue.map (fun c => McsCall.addIceCandidate m c))
        ∧ (Transceiver._flushCandidatesQueue s).2.length
            = s.candidatesQueue.length) := by
  refine ⟨?_, ?_, ?_⟩ <;> intro h <;>
    simp [Transceiver.onIceCandidate, Transceiver._flushCandidatesQueue, h]

/-- C2 witness: a concrete run of the flush conjunct — two pending
candidates are forwarded in FIFO order and the queue empties. -/
theorem C2_witness :
    (Transceiver._flushCandidatesQueue
        { Transceiver.initState "vb" "u1" "cid" with
            mediaId := some "m1", candidatesQueue := ["C1", "C2"] }).1.candidatesQueue = []
    ∧ (Transceiver._flushCandidatesQueue
        { Transceiver.initState "vb" "u1" "cid" with
            mediaId := some "m1", candidatesQueue := ["C1", "C2"] }).2 =
        [McsCall.addIceCandidate "m1" "C1", McsCall.addIceCandidate "m1" "C2"] := by
  have h := (C2_pending_ice_queue
      { Transceiver.initState "vb" "u1" "cid" with
          mediaId := some "m1", candidatesQueue := ["C1", "C2"] } "m1" "x").2.2 rfl
  rw [h.1]
  exact ⟨rfl, rfl⟩

/-- C4: the publisher/transceiver `start` sequence: when
`mcs.waitForConnection` reports false it fails with
`MEDIA_SERVER_OFFLINE` having made no other call; when every step
succeeds the MCS-facing trace is exactly join, publish (the media id is
recorded in the state), bridge start on that media id, consume of
(bridge media id, media id, AUDIO) giving the answer, connect in both
directions, the two event subscriptions filtered to the media id, then
the pending-ICE flush, and the answer is returned; and the run returns
ok exactly when every step succeeds — any failure propagates as a
normalized error. -/
theorem C4_start_sequence (o : Transceiver.McsOracle) (s : Transceiver.State)
    (sdpOffer : String) :
    (o.waitForConnection = false →
      Transceiver.start o s sdpOffer =
        (.error errors.MEDIA_SERVER_OFFLINE, s, [McsCall.waitForConnection]))
    ∧ (∀ u m b ans, o.waitForConnection = true → o.join = .ok u →
        o.publish = .ok m → o.bridgeStart = .ok b → o.consume = .ok ans →
        Transceiver.start o s sdpOffer =
          (.ok ans,
            { s with mcsUserId := some u, mediaId := some m,
                     bridgeMediaId := some b, candidatesQueue := [] },
            [McsCall.waitForConnection, McsCall.join s.voiceBridge "SFU",
             McsCall.publish u s.voiceBridge sdpOffer, McsCall.bridgeStart m,
             McsCall.consume b m "AUDIO", McsCall.connect m b "AUDIO",
             McsCall.connect b m "AUDIO", McsCall.onEventMediaState m,
             McsCall.onEventMediaStateIce m]
              ++ s.candidatesQueue.map (fun c => McsCall.addIceCandidate m c)))
    ∧ ((∃ a, (Transceiver.start o s sdpOffer).1 = Except.ok a) ↔
        (o.waitForConnection = true ∧ (∃ x, o.join = Except.ok x)
          ∧ (∃ x, o.publish = Except.ok x) ∧ (∃ x, o.bridgeStart = Except.ok x)
          ∧ (∃ x, o.consume = Except.ok x))) := by
  refine ⟨?_, ?_, ?_⟩
  · intro h
    simp [Transceiver.start, h]
  · intro u m b ans hw hj hp hb hc
    simp [Transceiver.start, Transceiver._negotiateTransceiver,
      Transceiver._flushCandidatesQueue, hw, hj, hp, hb, hc]
  · constructor
    · rintro ⟨a, ha⟩
      cases hw : o.waitForConnection with
      | false => simp [Transceiver.start, hw] at ha
      | true =>
        cases hj : o.join with
        | error e => simp [Transceiver.start, hw, hj] at ha
        | ok u =>
          cases hp : o.publish with
          | error e =>
              simp [Transceiver.start, Transceiver._negotiateTransceiver,
                hw, hj, hp] at ha
          | ok m =>
            cases hb : o.bridgeStart with
            | error e =>
                simp [Transceiver.start, Transceiver._negotiateTransceiver,
                  hw, hj, hp, hb] at ha
            | ok b =>
              cases hc : o.consume with
              | error e =>
                  simp [Transceiver.start, Transceiver._negotiateTransceiver,
                    hw, hj, hp, hb, hc] at ha
              | ok ans =>
                  exact ⟨rfl, ⟨u, rfl⟩, ⟨m, rfl⟩, ⟨b, rfl⟩, ⟨ans, rfl⟩⟩
    · rintro ⟨hw, ⟨u, hj⟩, ⟨m, hp⟩, ⟨b, hb⟩, ⟨ans, hc⟩⟩
      refine ⟨ans, ?_⟩
      simp [Transceiver.start, Transceiver._negotiateTransceiver,
        Transceiver._flushCandidatesQueue, hw, hj, hp, hb, hc]

/-- C4 witness: a concrete all-success run returns the oracle's answer
with the specified ordered trace, one flush call per pending candidate. -/
theorem C4_witness :
    (Transceiver.start ⟨true, .ok "u1", .ok "m1", .ok "b1", .ok "ANS"⟩
        { Transceiver.initState "vb" "usr" "cid" with candidatesQueue := ["C1"] }
        "OFFER").1 = Except.ok "ANS"
    ∧ (Transceiver.start ⟨true, .ok "u1", .ok "m1", .ok "b1", .ok "ANS"⟩
        { Transceiver.initState "vb" "usr" "cid" with candidatesQueue := ["C1"] }
        "OFFER").2.2 =
        [McsCall.waitForConnection, McsCall.join "vb" "SFU",
         McsCall.publish "u1" "vb" "OFFER", McsCall.bridgeStart "m1",
         McsCall.consume "b1" "m1" "AUDIO", McsCall.connect "m1" "b1" "AUDIO",
         McsCall.connect "b1" "m1" "AUDIO", McsCall.onEventMediaState "m1",
         McsCall.onEventMediaStateIce "m1", McsCall.addIceCandidate "m1" "C1"] := by
  have h := (C4_start_sequence ⟨true, .ok "u1", .ok "m1", .ok "b1", .ok "ANS"⟩
      { Transceiver.initState "vb" "usr" "cid" with candidatesQueue := ["C1"] }
      "OFFER").2.1 "u1" "m1" "b1" "ANS" rfl rfl rfl rfl rfl
  rw [h]
  exact ⟨rfl, rfl⟩

/-- C5: watchdog invariants of the audio transceiver: arming either
watchdog while it is already armed is a no-op (so arming twice equals
arming once and at most one timer is ever pending per watchdog), arming
when unarmed leaves it armed; a FLOWING flow-state event for the
endpoint's media id clears the media-flow watchdog, a CONNECTED media
state event clears the media-state watchdog, and `stop` unconditionally
clears both. -/
theorem C5_watchdog_invariants (s : Transceiver.State)
    (ev : Transceiver.MediaEvent) (target : String) :
    Transceiver.setMediaFlowingTimeout (Transceiver.setMediaFlowingTimeout s) =
      Transceiver.setMediaFlowingTimeout s
    ∧ Transceiver.setMediaStateTimeout (Transceiver.setMediaStateTimeout s) =
      Transceiver.setMediaStateTimeout s
    ∧ (Transceiver.setMediaFlowingTimeout s).mediaFlowingTimeout.isSome = true
    ∧ (Transceiver.setMediaStateTimeout s).mediaStateTimeout.isSome = true
    ∧ (ev.mediaId = target →
        (ev.name = Transceiver.MediaEventName.MediaFlowOutStateChange
          ∨ ev.name = Transceiver.MediaEventName.MediaFlowInStateChange) →
        ev.details = "FLOWING" →
        (Transceiver._mediaStateWebRTC s ev target).1.mediaFlowingTimeout = none)
    ∧ (ev.mediaId = target →
        ev.name = Transceiver.MediaEventName.MediaStateChanged →
        ev.details = "CONNECTED" →
        (Transceiver._mediaStateWebRTC s ev target).1.mediaStateTimeout = none)
    ∧ (Transceiver.stop s).1.mediaFlowingTimeout = none
    ∧ (Transceiver.stop s).1.mediaStateTimeout = none := by
  refine ⟨?_, ?_, ?_, ?_, ?_, ?_, ?_, ?_⟩
  · cases h : s.mediaFlowingTimeout <;>
      simp [Transceiver.setMediaFlowingTimeout, h]
  · cases h : s.mediaStateTimeout <;>
      simp [Transceiver.setMediaStateTimeout, h]
  · cases h : s.mediaFlowingTimeout <;>
      simp [Transceiver.setMediaFlowingTimeout, h]
  · cases h : s.mediaStateTimeout <;>
      simp [Transceiver.setMediaStateTimeout, h]
  · intro h1 h2 h3
    cases hm : s.mediaFlowingTimeout <;>
      rcases h2 with h2 | h2 <;>
        simp [Transceiver._mediaStateWebRTC, h1, h2, h3,
          Transceiver._onSubscriberMediaFlowing,
          Transceiver.clearMediaFlowingTimeout, hm]
  · intro h1 h2 h3
    cases hm : s.mediaStateTimeout <;>
      simp [Transceiver._mediaStateWebRTC, h1, h2, h3,
        Transceiver._onSubscriberMediaConnected,
        Transceiver.clearMediaStateTimeout, hm]
  · cases hb : s.bridgeAttached <;> simp [Transceiver.stop, hb]
  · cases hb : s.bridgeAttached <;> simp [Transceiver.stop, hb]

/-- C5 witness: on a state with both watchdogs armed, a FLOWING event
clears the media-flow watchdog and `stop` clears it as well. -/
theorem C5_witness :
    (Transceiver._mediaStateWebRTC
        { Transceiver.initState "vb" "u1" "cid" with
            mediaFlowingTimeout := some 5, mediaStateTimeout := some 6 }
        ⟨"m1", Transceiver.MediaEventName.MediaFlowInStateChange, "FLOWING"⟩
        "m1").1.mediaFlowingTimeout = none
    ∧ (Transceiver.stop
        { Transceiver.initState "vb" "u1" "cid" with
            mediaFlowingTimeout := some 5, mediaStateTimeout := some 6 }).1.mediaFlowingTimeout = none :=
  ⟨(C5_watchdog_invariants
      { Transceiver.initState "vb" "u1" "cid" with
          mediaFlowingTimeout := some 5, mediaStateTimeout := some 6 }
      ⟨"m1", Transceiver.MediaEventName.MediaFlowInStateChange, "FLOWING"⟩
      "m1").2.2.2.2.1 rfl (Or.inr rfl) rfl,
   (C5_watchdog_invariants
      { Transceiver.initState "vb" "u1" "cid" with
          mediaFlowingTimeout := some 5, mediaStateTimeout := some 6 }
      ⟨"m1", Transceiver.MediaEventName.MediaFlowInStateChange, "FLOWING"⟩
      "m1").2.2.2.2.2.2.1⟩

/-- C7: `AudioSession.stop` is idempotent: running it on the state the
first stop produced changes nothing — same state, no MCS calls and no
client frames, so `stop; stop` is observably `stop` — because the first
stop cleared the endpoint slot to null (after awaiting the endpoint's
stop, whose calls are exactly those of the detached endpoint's stop),
leaving the second stop nothing to stop and nothing to emit. -/
theorem C7_stop_idempotent (s : AudioSession.State) :
    AudioSession.stop (AudioSession.stop s).1 = ((AudioSession.stop s).1, [], [])
    ∧ (AudioSession.stop s).1.clientEndpoint = none
    ∧ (AudioSession.stop s).2.2 = []
    ∧ (∀ ep, s.clientEndpoint = some ep →
        (AudioSession.stop s).2.1 =
          (Transceiver.stop (AudioSession.finalDetachEndpoint ep)).2)
    ∧ (s.clientEndpoint = none → (AudioSession.stop s).2.1 = []) := by
  refine ⟨?_, ?_, ?_, ?_, ?_⟩
  · cases h : s.clientEndpoint <;> simp [AudioSession.stop, h]
  · cases h : s.clientEndpoint <;> simp [AudioSession.stop, h]
  · cases h : s.clientEndpoint <;> simp [AudioSession.stop, h]
  · intro ep h
    simp [AudioSession.stop, h]
  · intro h
    simp [AudioSession.stop, h]

/-- C7 witness: concrete session with a live endpoint — the first stop
unpublishes and stops the bridge; the second stop is a no-op with no
calls and no frames. -/
theorem C7_witness :
    (AudioSession.stop
        { clientEndpoint := some
            { Transceiver.initState "vb" "u1" "cid" with
                mcsUserId := some "u1", mediaId := some "m1" }
          meetingSubscribed := true
          mcsSubscribed := true }).2.1 =
      [McsCall.unpublish "u1" "m1", McsCall.bridgeStop]
    ∧ AudioSession.stop
        (AudioSession.stop
          { clientEndpoint := some
              { Transceiver.initState "vb" "u1" "cid" with
                  mcsUserId := some "u1", mediaId := some "m1" }
            meetingSubscribed := true
            mcsSubscribed := true }).1 =
      ((AudioSession.stop
          { clientEndpoint := some
              { Transceiver.initState "vb" "u1" "cid" with
                  mcsUserId := some "u1", mediaId := some "m1" }
            meetingSubscribed := true
            mcsSubscribed := true }).1, [], []) := by
  constructor
  · have h := (C7_stop_idempotent
        { clientEndpoint := some
            { Transceiver.initState "vb" "u1" "cid" with
                mcsUserId := some "u1", mediaId := some "m1" }
          meetingSubscribed := true
          mcsSubscribed := true }).2.2.2.1 _ rfl
    rw [h]
    rfl
  · exact (C7_stop_idempotent
        { clientEndpoint := some
            { Transceiver.initState "vb" "u1" "cid" with
                mcsUserId := some "u1", mediaId := some "m1" }
          meetingSubscribed := true
          mcsSubscribed := true }).1

theorem handleStart_ok_existing (o : StartOracle) (st : VMState)
    (request : Message) (v : Video) (answer : String)
    (hperm : _getPermission o.permission request.role = Except.ok ())
    (hv : getSession st (getSessionId request) = some v)
    (hok : o.videoStart = Except.ok answer) :
    (handleStart o st request).state.sessions =
      upsert (st.sessions.filter (fun kv => kv.1 != getSessionId request))
        (getSessionId request)
        (newVideo (getSessionId request) request.connectionId)
    ∧ (handleStart o st request).events =
      [VMEvent.sessionStopped (getSessionId request),
       VMEvent.stored (getSessionId request),
       VMEvent.videoStartCalled (getSessionId request),
       VMEvent.flushedIceQueue (getSessionId request)
         ((_fetchIceQueue st (getSessionId request)).2.length)] := by
  have hv' : lookupKey st.sessions (getSessionId request) = some v := hv
  cases hq : lookupKey st.iceQueues (getSessionId request) <;>
    simp [handleStart, hperm, hv', hok, hq, _fetchIceQueue, _closeSession,
      _stopSession, _deleteIceQueue, getSession, storeSession]

/-- C3: stale-session replacement in `handleStart`: with permission
granted and an entry already stored under the key, the run closes the
existing session strictly before storing the new one (the event trace
begins `sessionStopped; stored`); a completed restart leaves the new
`STARTING` session as the unique entry under the key (lookup finds it
and the key's multiplicity is 1); and the at-most-one-entry-per-key
table invariant is preserved by the run as well as by each table
primitive it uses (`storeSession`, `_closeSession`), so it holds at
every intermediate instant. -/
theorem C3_handleStart_stale_replacement (o : StartOracle) (st : VMState)
    (request : Message) (answer : String)
    (hperm : _getPermission o.permission request.role = Except.ok ())
    (hex : (getSession st (getSessionId request)).isSome = true)
    (hok : o.videoStart = Except.ok answer)
    (hdk : distinctKeys st.sessions) :
    (∃ tail, (handleStart o st request).events =
        VMEvent.sessionStopped (getSessionId request)
          :: VMEvent.stored (getSessionId request) :: tail)
    ∧ getSession (handleStart o st request).state (getSessionId request) =
        some (newVideo (getSessionId request) request.connectionId)
    ∧ distinctKeys (handleStart o st request).state.sessions
    ∧ countKey (handleStart o st request).state.sessions (getSessionId request) = 1
    ∧ (∀ st' : VMState, ∀ k : String, ∀ v : Video,
        distinctKeys st'.sessions → distinctKeys (storeSession st' k v).sessions)
    ∧ (∀ st' : VMState, ∀ k : String,
        distinctKeys st'.sessions → distinctKeys (_closeSession st' k).1.sessions) := by
  obtain ⟨v, hv⟩ := Option.isSome_iff_exists.mp hex
  obtain ⟨hsess, hev⟩ := handleStart_ok_existing o st request v answer hperm hv hok
  have hfil : distinctKeys
      (st.sessions.filter (fun kv => kv.1 != getSessionId request)) :=
    distinctKeys_filter _ _ hdk
  refine ⟨⟨_, by rw [hev]⟩, ?_, ?_, ?_, ?_, ?_⟩
  · rw [getSession, hsess]
    exact lookupKey_upsert_self _ _ _
  · rw [hsess]
    exact distinctKeys_upsert _ _ _ hfil
  · rw [hsess]
    exact countKey_upsert_self _ _ _ hfil
  · intro st' k v' h
    exact distinctKeys_upsert _ _ _ h
  · intro st' k h
    cases hg : getSession st' k with
    | none => simpa [_closeSession, _stopSession, _deleteIceQueue, hg] using h
    | some w =>
        simpa [_closeSession, _stopSession, _deleteIceQueue, hg] using
          distinctKeys_filter _ _ h

/-- C3 witness: restarting `u1-c1-share` on a table already holding it —
the event trace opens with the close followed by the store, and the final
table holds exactly one entry under the key, the fresh `STARTING` one. -/
theorem C3_witness :
    (∃ tail, (handleStart ⟨⟨Except.ok (), Except.ok ()⟩, Except.ok "ANS"⟩
          sampleTable sampleStartMessage).events =
        VMEvent.sessionStopped (getSessionId sampleStartMessage)
          :: VMEvent.stored (getSessionId sampleStartMessage) :: tail)
    ∧ countKey (handleStart ⟨⟨Except.ok (), Except.ok ()⟩, Except.ok "ANS"⟩
          sampleTable sampleStartMessage).state.sessions
        (getSessionId sampleStartMessage) = 1 := by
  have h := C3_handleStart_stale_replacement
      ⟨⟨Except.ok (), Except.ok ()⟩, Except.ok "ANS"⟩
      sampleTable sampleStartMessage "ANS" (by decide) (by decide) (by decide)
      (by simp [distinctKeys, sampleTable])
  exact ⟨h.1, h.2.2.2.1⟩

/-- C6: a video `start` whose permission query fails (a deny, or the
`SFU_INVALID_REQUEST` raised for a role that is neither `share` nor
`viewer`) produces exactly one error frame carrying the oracle's code,
exactly one error-metric increment labelled `("start", code)`, no
events, and leaves the whole manager state — session table and ICE
queues, including any session already stored under the key — unchanged. -/
theorem C6_start_denied (o : StartOracle) (st : VMState) (request : Message)
    (e : SfuError)
    (hid : request.id = "start")
    (h : _getPermission o.permission request.role = Except.error e) :
    handleStart o st request =
      { state := st
        frames := [OutFrame.videoError request.connectionId e.code]
        errorMetrics := [("start", e.code)]
        events := [] }
    ∧ (request.role ≠ "share" → request.role ≠ "viewer" →
        _getPermission o.permission request.role =
          Except.error errors.SFU_INVALID_REQUEST) := by
  constructor
  · rw [← hid]
    simp [handleStart, h]
  · intro h1 h2
    simp [_getPermission, h1, h2]

/-- C6 witness: a denied `share` start (oracle code 2403) on a table that
already holds a session under the same key — one error frame, one metric
increment, table untouched; and an exotic role raises
`SFU_INVALID_REQUEST`. -/
theorem C6_witness :
    handleStart ⟨⟨Except.error ⟨2403⟩, Except.ok ()⟩, Except.ok "ANS"⟩
        sampleTable sampleStartMessage =
      { state := sampleTable
        frames := [OutFrame.videoError "conn2" 2403]
        errorMetrics := [("start", 2403)]
        events := [] }
    ∧ _getPermission ⟨Except.error ⟨2403⟩, Except.ok ()⟩ "oddrole" =
        Except.error errors.SFU_INVALID_REQUEST := by
  have h := C6_start_denied ⟨⟨Except.error ⟨2403⟩, Except.ok ()⟩, Except.ok "ANS"⟩
      sampleTable sampleStartMessage ⟨2403⟩ (by decide) (by decide)
  have h2 := C6_start_denied ⟨⟨Except.error ⟨2403⟩, Except.ok ()⟩, Except.ok "ANS"⟩
      sampleTable { sampleStartMessage with role := "oddrole" }
      errors.SFU_INVALID_REQUEST (by decide) (by decide)
  exact ⟨h.1, h2.2 (by decide) (by decide)⟩

/-- C10 (implicit): when permission succeeds but `video.start` rejects,
the freshly constructed session stays stored — `storeSession` runs before
the await of `video.start` (the event trace ends `stored;
videoStartCalled`), and the catch sends one error frame and one metric
increment without removing the table entry, which still maps the key to
the new `STARTING` session. -/
theorem C10_start_failure_session_remains (o : StartOracle) (st : VMState)
    (request : Message) (e : SfuError)
    (hperm : _getPermission o.permission request.role = Except.ok ())
    (hfail : o.videoStart = Except.error e) :
    getSession (handleStart o st request).state (getSessionId request) =
      some (newVideo (getSessionId request) request.connectionId)
    ∧ (handleStart o st request).frames =
        [OutFrame.videoError request.connectionId e.code]
    ∧ (handleStart o st request).errorMetrics = [(request.id, e.code)]
    ∧ ∃ pre, (handleStart o st request).events =
        pre ++ [VMEvent.stored (getSessionId request),
                VMEvent.videoStartCalled (getSessionId request)] := by
  cases hv : getSession st (getSessionId request) with
  | none =>
      have hv' : lookupKey st.sessions (getSessionId request) = none := hv
      cases hq : lookupKey st.iceQueues (getSessionId request) with
      | none =>
          refine ⟨?_, ?_, ?_, ⟨[], ?_⟩⟩ <;>
            simp [handleStart, hperm, hv', hq, hfail, _fetchIceQueue,
              _closeSession, _stopSession, _deleteIceQueue, getSession,
              storeSession, lookupKey_upsert_self]
      | some q =>
          refine ⟨?_, ?_, ?_, ⟨[], ?_⟩⟩ <;>
            simp [handleStart, hperm, hv', hq, hfail, _fetchIceQueue,
              _closeSession, _stopSession, _deleteIceQueue, getSession,
              storeSession, lookupKey_upsert_self]
  | some v =>
      have hv' : lookupKey st.sessions (getSessionId request) = some v := hv
      cases hq : lookupKey st.iceQueues (getSessionId request) with
      | none =>
          refine ⟨?_, ?_, ?_,
              ⟨[VMEvent.sessionStopped (getSessionId request)], ?_⟩⟩ <;>
            simp [handleStart, hperm, hv', hq, hfail, _fetchIceQueue,
              _closeSession, _stopSession, _deleteIceQueue, getSession,
              storeSession, lookupKey_upsert_self]
      | some q =>
          refine ⟨?_, ?_, ?_,
              ⟨[VMEvent.sessionStopped (getSessionId request)], ?_⟩⟩ <;>
            simp [handleStart, hperm, hv', hq, hfail, _fetchIceQueue,
              _closeSession, _stopSession, _deleteIceQueue, getSession,
              storeSession, lookupKey_upsert_self]

/-- C10 witness: permission granted, MCS negotiation fails with code
2001 — the fresh session is still stored under the key, alongside the
error frame and the metric increment. -/
theorem C10_witness :
    getSession (handleStart
        ⟨⟨Except.ok (), Except.ok ()⟩, Except.error errors.MEDIA_SERVER_OFFLINE⟩
        { sessions := [], iceQueues := [] } sampleStartMessage).state
      (getSessionId sampleStartMessage) =
      some (newVideo (getSessionId sampleStartMessage) "conn2")
    ∧ (handleStart
        ⟨⟨Except.ok (), Except.ok ()⟩, Except.error errors.MEDIA_SERVER_OFFLINE⟩
        { sessions := [], iceQueues := [] } sampleStartMessage).errorMetrics =
      [("start", 2001)] := by
  have h := C10_start_failure_session_remains
      ⟨⟨Except.ok (), Except.ok ()⟩, Except.error errors.MEDIA_SERVER_OFFLINE⟩
      { sessions := [], iceQueues := [] } sampleStartMessage
      errors.MEDIA_SERVER_OFFLINE (by decide) (by decide)
  exact ⟨h.1, by rw [h.2.2.1]; decide⟩

theorem runQueue_get (t0 : Nat) (ds : List Nat) (idx : Nat)
    (h : idx < ds.length) :
    (Lifecycle.runQueue t0 ds)[idx]? =
      some (Lifecycle.startTime t0 ds idx, Lifecycle.startTime t0 ds (idx + 1)) := by
  induction ds generalizing t0 idx with
  | nil => simp at h
  | cons d ds ih =>
      cases idx with
      | zero => simp [Lifecycle.runQueue, Lifecycle.startTime]
      | succ n =>
          have hn : n < ds.length := by simpa using h
          simp [Lifecycle.runQueue, Lifecycle.startTime, ih (t0 + d) n hn,
            Nat.add_assoc]

theorem startTime_mono (t0 : Nat) (ds : List Nat) (a b : Nat) (hab : a ≤ b) :
    Lifecycle.startTime t0 ds a ≤ Lifecycle.startTime t0 ds b := by
  have h1 : ds.take b = ds.take a ++ (ds.drop a).take (b - a) := by
    rw [← List.take_add, Nat.add_sub_cancel' hab]
  simp only [Lifecycle.startTime, h1, List.sum_append]
  omega

/-- C1: per-key serialization of session lifecycle commands: the router
`_onMessage` sends every inbound `start`, `subscriberAnswer` and `stop`
message to the lifecycle queue fetched for that message's session key
(so commands for one key all land on one FIFO), and on any run of a
key's queue — whatever each task's completion duration, success or
failure — the execution intervals are totally ordered and non-
overlapping: task `a` of the queue ends no later than any later task `b`
begins. -/
theorem C1_lifecycle_serialization (message : Message) (t0 : Nat)
    (ds : List Nat) (a b : Nat) (hab : a < b) (hb : b < ds.length) :
    (message.id = "start" →
      _onMessage message = RouteEffect.enqueue (getSessionId message)
        (LifecycleTask.handleStartTask message))
    ∧ (message.id = "subscriberAnswer" →
      _onMessage message = RouteEffect.enqueue (getSessionId message)
        (LifecycleTask.handleSubscriberAnswerTask message))
    ∧ (message.id = "stop" →
      _onMessage message = RouteEffect.enqueue (getSessionId message)
        (LifecycleTask.handleStopTask message))
    ∧ (∃ sa ea sb eb,
        (Lifecycle.runQueue t0 ds)[a]? = some (sa, ea)
        ∧ (Lifecycle.runQueue t0 ds)[b]? = some (sb, eb)
        ∧ sa ≤ ea ∧ ea ≤ sb) := by
  refine ⟨?_, ?_, ?_, ?_⟩
  · intro h
    simp [_onMessage, h]
  · intro h
    simp [_onMessage, h]
  · intro h
    simp [_onMessage, h]
  · refine ⟨_, _, _, _, runQueue_get t0 ds a (lt_trans hab hb),
      runQueue_get t0 ds b hb, ?_, ?_⟩
    · exact startTime_mono t0 ds a (a + 1) (Nat.le_succ a)
    · exact startTime_mono t0 ds (a + 1) b hab

/-- C1 witness: a concrete `start` message routes to the queue of its
session key `u1-c1-share`, and a two-task queue run (durations 2 and 3)
yields ordered, non-overlapping intervals. -/
theorem C1_witness :
    _onMessage sampleStartMessage =
      RouteEffect.enqueue (getSessionId sampleStartMessage)
        (LifecycleTask.handleStartTask sampleStartMessage)
    ∧ getSessionId sampleStartMessage = "u1-c1-share"
    ∧ ∃ sa ea sb eb, (Lifecycle.runQueue 0 [2, 3])[0]? = some (sa, ea)
        ∧ (Lifecycle.runQueue 0 [2, 3])[1]? = some (sb, eb)
        ∧ sa ≤ ea ∧ ea ≤ sb := by
  refine ⟨(C1_lifecycle_serialization sampleStartMessage
      0 [2, 3] 0 1 (by decide) (by decide)).1 (by decide),
    by decide,
    (C1_lifecycle_serialization sampleStartMessage
      0 [2, 3] 0 1 (by decide) (by decide)).2.2.2⟩

end SFU
